import Mathlib

/-!
Shallow embedding of `auth_jwt.go` (package `jwt`, go-json-rest JWT middleware).

Modelling conventions:
* Go `time.Duration` / Unix timestamps are modelled as `Int` seconds; the
  repeated `time.Now()` calls inside one handler are modelled as a single
  instant `now`.
* JSON claim values (`map[string]interface{}`) are modelled by the tagged type
  `CValue`; numeric claim values (Go `float64` after JSON decoding, `int64`
  when written by the handlers) are modelled by a single integer constructor,
  which is faithful for the integral Unix timestamps the code manipulates
  (the Go cast `int64(x.(float64))` is the identity there).
* A Go map is modelled as an association list with `Claims.get` (first match)
  and `Claims.set` (replace-or-append), matching Go map update semantics.
* The wire format (base64/JSON serialization) of the external jwt library is
  abstracted: a signed token is the structure `WireToken`, and an HMAC
  signature is modelled as the unforgeable value `Sig` recording the
  algorithm, key and payload it was computed over; verification is equality
  with the recomputed `Sig`.
* Side effects on the response writer are modelled by the `Response` value a
  handler produces; the optional `StoreToken` / `RemoveToken` hooks are
  external effects and only their configured-or-not status is part of the
  state.
* Go `panic` (the unchecked type assertions `.(string)` / `.(float64)`)
  is modelled by an explicit `crash` outcome.
-/

namespace AuthJwt

/-- Tagged JSON-style claim value (`interface\x7b\x7d` in the Go map). -/
inductive CValue where
  | str (s : String)
  | num (n : Int)
  | boolean (b : Bool)
  | null
  deriving DecidableEq, Repr

/-- Claims map: association list, first binding wins on lookup. -/
abbrev Claims := List (String × CValue)

/-- Lookup of a claim key (Go `m[k]`, `none` for a missing key). -/
def Claims.get : Claims → String → Option CValue
  | [], _ => none
  | (k', v) :: rest, k => if k' = k then some v else Claims.get rest k

/-- Go map assignment `m[k] = v`: replace the binding if present, else append. -/
def Claims.set : Claims → String → CValue → Claims
  | [], k, v => [(k, v)]
  | (k', v') :: rest, k, v =>
      if k' = k then (k, v) :: rest else (k', v') :: Claims.set rest k v

/-- Fold a batch of assignments into a map (Go `for k, v := range ext`). -/
def Claims.setAll (m : Claims) (ext : Claims) : Claims :=
  ext.foldl (fun acc p => acc.set p.1 p.2) m

theorem Claims.get_set_self (m : Claims) (k : String) (v : CValue) :
    (m.set k v).get k = some v := by
  induction m with
  | nil => simp [Claims.set, Claims.get]
  | cons p rest ih =>
      obtain ⟨k', v'⟩ := p
      by_cases h : k' = k
      · simp [Claims.set, h, Claims.get]
      · simp [Claims.set, h, Claims.get, ih]

theorem Claims.get_set_ne (m : Claims) (k q : String) (v : CValue) (h : q ≠ k) :
    (m.set k v).get q = m.get q := by
  have hkq : ¬ k = q := fun h' => h h'.symm
  induction m with
  | nil => simp [Claims.set, Claims.get, hkq]
  | cons p rest ih =>
      obtain ⟨k', v'⟩ := p
      by_cases hk : k' = k
      · subst hk
        simp [Claims.set, Claims.get, hkq]
      · by_cases hq : k' = q
        · simp [Claims.set, hk, Claims.get, hq, h]
        · simp [Claims.set, hk, Claims.get, hq, h, ih]

/-- HMAC signature value: records what it was computed over. Modelled from the
spec: the signature of the external jwt library is an unforgeable function of
the algorithm, the key and the serialized claims, so two signatures are equal
exactly when those inputs coincide. -/
structure Sig where
  alg : String
  key : List Nat
  payload : Claims
  deriving DecidableEq, Repr

/-- Signed token as decoded from the wire (`jwt.Token`): the header algorithm,
the claims map, the signature, and the raw compact string. -/
structure WireToken where
  method : String
  claims : Claims
  sig : Sig
  raw : String
  deriving DecidableEq, Repr

/-- Compute the signature over a claims payload (`token.SignedString(key)`). -/
def mkSig (alg : String) (key : List Nat) (payload : Claims) : Sig :=
  ⟨alg, key, payload⟩

/-- Build and sign a fresh token (`jwt.New` followed by `SignedString`); the
raw string of a freshly produced token is not inspected by the component. -/
def signNew (alg : String) (key : List Nat) (c : Claims) : WireToken :=
  ⟨alg, c, mkSig alg key c, ""⟩

/-- Response value written to the `rest.ResponseWriter`. -/
inductive Body where
  | jsonToken (tok : WireToken)
  | text (msg : String)
  deriving DecidableEq, Repr

/-- HTTP response produced by a handler. -/
structure Response where
  status : Nat
  wwwAuthenticate : Option String
  body : Body
  deriving DecidableEq, Repr

/-- Headers of an incoming request, as a total lookup (Go `Header.Get`,
returning `""` for a missing header). -/
abbrev Headers := String → String

/-- Extractor callback type (`func(request) (string, error)`). -/
abbrev ExtractorFn := Headers → Except String String

/-- Response-emission callback type (`func(tokenString, request, writer)`);
in the model it receives the signed token and decides the response. -/
abbrev CallbackFn := WireToken → Response

/-- Configuration and collaborator state of the middleware (struct
`JWTMiddleware`); nilable Go fields are `Option`. -/
structure JWTMiddleware where
  Realm : String
  SigningAlgorithm : String
  Key : Option (List Nat)
  Timeout : Int
  MaxRefresh : Int
  Authenticator : Option (String → String → Bool)
  Authorizator : Option (String → Bool)
  StoreToken : Option (Int → String → String → Unit)
  RemoveToken : Option (String → String → Unit)
  PayloadFunc : Option (String → Claims)
  TokenExtractor : Option ExtractorFn
  TokenName : String
  TokenEnvName : String
  LoginCallback : Option CallbackFn
  RefreshCallback : Option CallbackFn

/-- Uniform 401 response (`func (mw *JWTMiddleware) unauthorized`): the
`WWW-Authenticate` header is the literal concatenation `"JWT realm=" + Realm`
and the body is the generic `"Not Authorized"` message. -/
def unauthorizedResponse (mw : JWTMiddleware) : Response :=
  { status := 401
    wwwAuthenticate := some ("JWT realm=" ++ mw.Realm)
    body := .text "Not Authorized" }

/-- Algorithm lookup (`jwt.GetSigningMethod`): resolves only the HMAC family
names registered by the library that this middleware supports. -/
def getSigningMethod (alg : String) : Option String :=
  if alg = "HS256" ∨ alg = "HS384" ∨ alg = "HS512" then some alg else none

/-- Verification of one decoded token. Modelled from the spec: the body of the
external `jwt.Parse` (dgrijalva/jwt-go) is not part of this repository; per
the spec a token is valid iff the signature verifies under the configured key
and algorithm and `exp` is strictly in the future. The key function passed in
`parseToken` (which is in the source) rejects a token whose method differs
from the configured algorithm before releasing the key. -/
def jwtParse (mw : JWTMiddleware) (now : Int) (w : WireToken) :
    Except String WireToken :=
  match getSigningMethod w.method with
  | none => .error "signing method (alg) is unavailable"
  | some m =>
      if getSigningMethod mw.SigningAlgorithm ≠ some m then
        .error "Invalid signing algorithm"
      else if w.sig ≠ mkSig m (mw.Key.getD []) w.claims then
        .error "signature is invalid"
      else
        match w.claims.get "exp" with
        | some (.num e) => if now < e then .ok w else .error "token is expired"
        | _ => .error "token expiry is missing or malformed"

/-- Whole of `parseToken`: the extractor result followed by `jwt.Parse`. The
wire decoding of the extracted string is external; the model takes the
decoded extraction outcome as input. -/
def parseTokenE (mw : JWTMiddleware) (now : Int)
    (extracted : Except String WireToken) : Except String WireToken :=
  match extracted with
  | .error e => .error e
  | .ok w => jwtParse mw now w

/-- Request environment (`request.Env`), a mutable string-keyed map. -/
inductive EnvValue where
  | str (s : String)
  | claimsMap (c : Claims)

/-- Environment as a total lookup returning `none` for missing entries. -/
abbrev Env := String → Option EnvValue

/-- Environment update `request.Env[k] = v`. -/
def Env.set (e : Env) (k : String) (v : EnvValue) : Env :=
  fun q => if q = k then some v else e q

/-- Outcome of the verification gate `middlewareImpl`: a 401, admission to the
wrapped handler with the updated environment, or a Go panic. -/
inductive GateResult where
  | unauthorized (r : Response)
  | admitted (env : Env)
  | crash (msg : String)

/-- Outcome of `LoginHandler` / `RefreshHandler`: a 401, a signed token
emitted through the response callback, or a Go panic. -/
inductive HandlerResult where
  | unauthorized (r : Response)
  | emitted (tok : WireToken) (r : Response)
  | crash (msg : String)
  deriving DecidableEq, Repr

/-- Default emission callback (`defaultResponseCallback`): write the token as
the JSON body `\x7b"token": ...\x7d`. -/
def defaultResponseCallback : CallbackFn :=
  fun tok => { status := 200, wwwAuthenticate := none, body := .jsonToken tok }

/-- Split on the first space only (Go `strings.SplitN(s, " ", 2)`). -/
def splitN2 (s : String) : String × Option String :=
  match s.splitOn " " with
  | [] => (s, none)
  | [x] => (x, none)
  | x :: rest => (x, some (String.intercalate " " rest))

/-- Default extractor (`defaultTokenExtractor`): read the configured header,
require exactly two space-separated parts with literal first part `Bearer`. -/
def defaultTokenExtractor (tokenName : String) : ExtractorFn :=
  fun headers =>
    let authHeader := headers tokenName
    if authHeader = "" then .error "Auth header empty"
    else
      match splitN2 authHeader with
      | (p0, some p1) =>
          if p0 = "Bearer" then .ok p1 else .error "Invalid auth header"
      | (_, none) => .error "Invalid auth header"

/-- Verification gate (`middlewareImpl`): parse and verify the token, bind
`REMOTE_USER`, `JWT_PAYLOAD` and the raw token into the environment, run the
`Authorizator`, then admit. The `id` claim is read with the unchecked Go type
assertion `.(string)`, which panics when the entry is missing or not a
string. `extracted` is the decoded result of the configured extractor. -/
def middlewareImpl (mw : JWTMiddleware) (now : Int)
    (extracted : Except String WireToken) (env : Env) : GateResult :=
  match parseTokenE mw now extracted with
  | .error _ => .unauthorized (unauthorizedResponse mw)
  | .ok tok =>
      match tok.claims.get "id" with
      | some (.str id) =>
          let env := env.set "REMOTE_USER" (.str id)
          let env := env.set "JWT_PAYLOAD" (.claimsMap tok.claims)
          let env := env.set mw.TokenEnvName (.str tok.raw)
          match mw.Authorizator with
          | some authz =>
              if authz id then .admitted env
              else .unauthorized (unauthorizedResponse mw)
          | none => .crash "nil Authorizator"
      | _ => .crash "interface conversion: interface is not string"

/-- Result of `ExtractClaims`: the claims map, or a Go panic from the
unchecked map type assertion. -/
inductive ClaimsResult where
  | ok (c : Claims)
  | crash
  deriving DecidableEq, Repr

/-- Claims retrieval helper (`ExtractClaims`): a fresh empty map when the
environment has no `JWT_PAYLOAD` entry, else the stored map via the unchecked
assertion `.(map[string]interface\x7b\x7d)`. -/
def ExtractClaims (env : Env) : ClaimsResult :=
  match env "JWT_PAYLOAD" with
  | none => .ok []
  | some (.claimsMap c) => .ok c
  | some _ => .crash

/-- Decoded login body (`type login struct`). -/
structure Login where
  username : String
  password : String
  deriving DecidableEq, Repr

/-- Extra claims supplied by the provider callback at login (`PayloadFunc`),
folded into an empty map (Go `for key, value := range ...` assignments). -/
def loginPayload (mw : JWTMiddleware) (u : String) : Claims :=
  match mw.PayloadFunc with
  | none => []
  | some pf => Claims.setAll [] (pf u)

/-- Claims written at login: the provider payload first, then the reserved
keys `id`, `exp` and — when `MaxRefresh != 0` — `orig_iat`, in source order
(later writes win). -/
def loginClaims (mw : JWTMiddleware) (now : Int) (u : String) : Claims :=
  let c2 := (loginPayload mw u).set "id" (.str u)
  let c3 := c2.set "exp" (.num (now + mw.Timeout))
  if mw.MaxRefresh ≠ 0 then c3.set "orig_iat" (.num now) else c3

/-- Login endpoint (`LoginHandler`): `body` is the result of
`DecodeJsonPayload` (`none` on a decode error). Credentials are checked by
the `Authenticator`, the claims are `loginClaims`, and the signed token is
emitted through the login callback. -/
def loginHandler (mw : JWTMiddleware) (now : Int) (body : Option Login) :
    HandlerResult :=
  match body with
  | none => .unauthorized (unauthorizedResponse mw)
  | some lv =>
      match mw.Authenticator with
      | none => .crash "nil Authenticator"
      | some auth =>
          if auth lv.username lv.password then
            let tok := signNew mw.SigningAlgorithm (mw.Key.getD [])
                         (loginClaims mw now lv.username)
            .emitted tok ((mw.LoginCallback.getD defaultResponseCallback) tok)
          else .unauthorized (unauthorizedResponse mw)

/-- Claims written at refresh: the old claims copied entrywise, then `id`
overwritten with its (unchanged) old value, `exp = now + Timeout`, and
`orig_iat` carried forward, in source order. A missing old `id` is written
back as the Go `nil` interface value (JSON `null`). -/
def refreshClaims (mw : JWTMiddleware) (now : Int) (old : Claims)
    (origIat : Int) : Claims :=
  (((old.set "id" ((old.get "id").getD .null)).set
      "exp" (.num (now + mw.Timeout))).set
      "orig_iat" (.num origIat))

/-- Refresh endpoint (`RefreshHandler`): re-parse and verify the presented
token, read `orig_iat` with the unchecked assertion `.(float64)` (a panic
when missing or non-numeric), reject when `orig_iat < now - MaxRefresh`,
else build `refreshClaims`, sign, and emit; the post-signing
`newToken.Claims["id"].(string)` read for the store hooks is again an
unchecked assertion. -/
def refreshHandler (mw : JWTMiddleware) (now : Int)
    (extracted : Except String WireToken) : HandlerResult :=
  match parseTokenE mw now extracted with
  | .error _ => .unauthorized (unauthorizedResponse mw)
  | .ok tok =>
      match tok.claims.get "orig_iat" with
      | some (.num origIat) =>
          if origIat < now - mw.MaxRefresh then
            .unauthorized (unauthorizedResponse mw)
          else
            let c3 := refreshClaims mw now tok.claims origIat
            let newTok := signNew mw.SigningAlgorithm (mw.Key.getD []) c3
            match c3.get "id" with
            | some (.str _) =>
                .emitted newTok
                  ((mw.RefreshCallback.getD defaultResponseCallback) newTok)
            | _ => .crash "interface conversion: interface is not string"
      | _ => .crash "interface conversion: interface is not float64"

/-- Construction-time defaulting and validation (`MiddlewareFunc`): fill the
unset fields with their defaults in source order; `none` models `log.Fatal`
on a missing `Realm`, `Key` or `Authenticator`. The returned configuration is
the one every later per-request call reads. -/
def middlewareFunc (mw : JWTMiddleware) : Option JWTMiddleware :=
  let mw := if mw.TokenName = ""
            then { mw with TokenName := "Authorization" } else mw
  let mw := if mw.TokenEnvName = ""
            then { mw with TokenEnvName := "AUTH_TOKEN" } else mw
  if mw.Realm = "" then none else
  let mw := if mw.SigningAlgorithm = ""
            then { mw with SigningAlgorithm := "HS256" } else mw
  if mw.Key.isNone then none else
  let mw := if mw.Timeout = 0 then { mw with Timeout := 3600 } else mw
  if mw.Authenticator.isNone then none else
  let mw := if mw.TokenExtractor.isNone
            then { mw with TokenExtractor := some (defaultTokenExtractor mw.TokenName) }
            else mw
  let mw := if mw.Authorizator.isNone
            then { mw with Authorizator := some (fun _ => true) } else mw
  let mw := if mw.LoginCallback.isNone
            then { mw with LoginCallback := some defaultResponseCallback }
            else mw
  let mw := if mw.RefreshCallback.isNone
            then { mw with RefreshCallback := some defaultResponseCallback }
            else mw
  some mw

/-- Discriminator: did the gate admit the request? -/
def GateResult.isAdmitted : GateResult → Bool
  | .admitted _ => true
  | _ => false

/-- Discriminator: did the gate panic? -/
def GateResult.isCrash : GateResult → Bool
  | .crash _ => true
  | _ => false

/-- Environment carried by an admitted gate outcome (empty otherwise). -/
def GateResult.envAfter : GateResult → Env
  | .admitted e => e
  | _ => fun _ => none

/-- Discriminator: did the handler respond 401? -/
def HandlerResult.isUnauthorized : HandlerResult → Bool
  | .unauthorized _ => true
  | _ => false

/-- Discriminator: did the handler panic? -/
def HandlerResult.isCrash : HandlerResult → Bool
  | .crash _ => true
  | _ => false

/-- Token emitted by a handler, when one was. -/
def HandlerResult.emittedToken : HandlerResult → Option WireToken
  | .emitted tok _ => some tok
  | _ => none

/-! Concrete fixtures used by witnesses and counterexamples. -/

/-- Sample HMAC key bytes. -/
def sampleKey : List Nat := [1, 2, 3]

/-- Fully constructed middleware: HS256, 1 h timeout, 2 h refresh window. -/
def mwBase : JWTMiddleware :=
  { Realm := "test zone"
    SigningAlgorithm := "HS256"
    Key := some sampleKey
    Timeout := 3600
    MaxRefresh := 7200
    Authenticator := some (fun u p => u == "admin" && p == "secret")
    Authorizator := some (fun _ => true)
    StoreToken := none
    RemoveToken := none
    PayloadFunc := none
    TokenExtractor := none
    TokenName := "Authorization"
    TokenEnvName := "AUTH_TOKEN"
    LoginCallback := none
    RefreshCallback := none }

/-- Claims of a well-formed refreshable token. -/
def claimsFull : Claims :=
  [("id", .str "admin"), ("exp", .num 7200), ("orig_iat", .num 100)]

/-- Well-formed token signed under `mwBase`. -/
def tokFull : WireToken :=
  ⟨"HS256", claimsFull, mkSig "HS256" sampleKey claimsFull, "rawFull"⟩

/-- Claims of a correctly signed token with no `id` and no `orig_iat`. -/
def claimsBare : Claims := [("exp", .num 7200)]

/-- Correctly signed token with no `id` and no `orig_iat` entry. -/
def tokBare : WireToken :=
  ⟨"HS256", claimsBare, mkSig "HS256" sampleKey claimsBare, "rawBare"⟩


/-! Claim theorems. -/

/-- C7 (amended): every 401 produced by the gate, the login handler or the
refresh handler — whichever step failed — is the single uniform response:
status 401, challenge header `WWW-Authenticate: JWT realm=<realm>` with the
realm unquoted, and the generic body `Not Authorized`. -/
theorem uniform_unauthorized_response (mw : JWTMiddleware) (now : Int)
    (ext : Except String WireToken) (env : Env) (body : Option Login)
    (r : Response)
    (h : middlewareImpl mw now ext env = .unauthorized r
         ∨ loginHandler mw now body = .unauthorized r
         ∨ refreshHandler mw now ext = .unauthorized r) :
    r.status = 401 ∧ r.wwwAuthenticate = some ("JWT realm=" ++ mw.Realm)
      ∧ r.body = .text "Not Authorized" := by
  have hr : r = unauthorizedResponse mw := by
    rcases h with h | h | h
    · unfold middlewareImpl at h
      repeat' split at h
      all_goals cases h
      all_goals rfl
    · unfold loginHandler at h
      repeat' split at h
      all_goals cases h
      all_goals rfl
    · unfold refreshHandler at h
      repeat' split at h
      any_goals (cases h; rfl)
      any_goals cases h
      all_goals dsimp only at h
      all_goals split at h
      all_goals cases h
  subst hr
  exact ⟨rfl, rfl, rfl⟩

/-- C7 witness: at a concrete failed extraction the gate answers exactly the
uniform response, whose header carries the unquoted realm. -/
theorem uniform_unauthorized_response_witness :
    (unauthorizedResponse mwBase).status = 401
    ∧ (unauthorizedResponse mwBase).wwwAuthenticate
        = some ("JWT realm=" ++ mwBase.Realm)
    ∧ (unauthorizedResponse mwBase).body = .text "Not Authorized" :=
  uniform_unauthorized_response mwBase 0 (.error "no header") (fun _ => none)
    none (unauthorizedResponse mwBase) (Or.inl rfl)

/-- C7 counterexample: the produced challenge header is the unquoted
`JWT realm=test zone`, not the claimed quoted form `JWT realm="test zone"`,
already on a plain extraction failure. -/
theorem unauthorized_header_unquoted :
    (unauthorizedResponse mwBase).wwwAuthenticate = some "JWT realm=test zone"
    ∧ (unauthorizedResponse mwBase).wwwAuthenticate
        ≠ some "JWT realm=\"test zone\""
    ∧ middlewareImpl mwBase 0 (.error "no header") (fun _ => none)
        = .unauthorized (unauthorizedResponse mwBase) :=
  ⟨by decide, by decide, rfl⟩

/-- C10: a login request whose body fails to decode is answered with the
uniform 401 response, and the outcome does not depend on the configured
`Authenticator` (it is never invoked). -/
theorem login_bad_body_uniform (mw : JWTMiddleware) (now : Int)
    (f g : Option (String → String → Bool)) :
    loginHandler mw now none = .unauthorized (unauthorizedResponse mw)
    ∧ loginHandler { mw with Authenticator := f } now none
        = loginHandler { mw with Authenticator := g } now none :=
  ⟨rfl, rfl⟩

/-- C2 (code bug): a correctly signed, unexpired token with no `id` entry
passes verification, but the gate then panics on the unchecked Go type
assertion `token.Claims["id"].(string)` instead of answering the uniform
401. -/
theorem gate_missing_id_crashes :
    parseTokenE mwBase 1000 (.ok tokBare) = .ok tokBare
    ∧ (middlewareImpl mwBase 1000 (.ok tokBare) (fun _ => none)).isCrash
        = true
    ∧ (middlewareImpl mwBase 1000 (.ok tokBare) (fun _ => none)).isAdmitted
        = false :=
  ⟨rfl, by decide, by decide⟩

/-- C6 (code bug): a correctly signed, unexpired token with no `orig_iat`
entry reaches the refresh handler, which panics on the unchecked Go type
assertion `token.Claims["orig_iat"].(float64)` instead of rejecting the
request. -/
theorem refresh_missing_orig_iat_crashes :
    parseTokenE mwBase 1000 (.ok tokBare) = .ok tokBare
    ∧ (refreshHandler mwBase 1000 (.ok tokBare)).isCrash = true
    ∧ (refreshHandler mwBase 1000 (.ok tokBare)).isUnauthorized = false :=
  ⟨rfl, by decide, by decide⟩

theorem signNew_method (alg : String) (key : List Nat) (c : Claims) :
    (signNew alg key c).method = alg := rfl

theorem signNew_claims (alg : String) (key : List Nat) (c : Claims) :
    (signNew alg key c).claims = c := rfl

theorem signNew_sig (alg : String) (key : List Nat) (c : Claims) :
    (signNew alg key c).sig = mkSig alg key c := rfl

theorem refreshClaims_get_id (mw : JWTMiddleware) (now t0 : Int)
    (old : Claims) :
    (refreshClaims mw now old t0).get "id" = some ((old.get "id").getD .null)
    := by
  unfold refreshClaims
  rw [Claims.get_set_ne _ _ _ _ (by decide), Claims.get_set_ne _ _ _ _
    (by decide), Claims.get_set_self]

theorem refreshClaims_get_exp (mw : JWTMiddleware) (now t0 : Int)
    (old : Claims) :
    (refreshClaims mw now old t0).get "exp" = some (.num (now + mw.Timeout))
    := by
  unfold refreshClaims
  rw [Claims.get_set_ne _ _ _ _ (by decide), Claims.get_set_self]

theorem refreshClaims_get_orig (mw : JWTMiddleware) (now t0 : Int)
    (old : Claims) :
    (refreshClaims mw now old t0).get "orig_iat" = some (.num t0) := by
  unfold refreshClaims
  rw [Claims.get_set_self]

theorem refreshClaims_get_other (mw : JWTMiddleware) (now t0 : Int)
    (old : Claims) (q : String) (h1 : q ≠ "id") (h2 : q ≠ "exp")
    (h3 : q ≠ "orig_iat") :
    (refreshClaims mw now old t0).get q = old.get q := by
  unfold refreshClaims
  rw [Claims.get_set_ne _ _ _ _ h3, Claims.get_set_ne _ _ _ _ h2,
    Claims.get_set_ne _ _ _ _ h1]

/-- C1: once the presented token parses and verifies and carries a numeric
`orig_iat = t0`, the refresh is rejected with the uniform 401 exactly when
`t0 < now - MaxRefresh`; the window is measured from `orig_iat`, so any
emitted token expires at `now + Timeout ≤ t0 + MaxRefresh + Timeout`,
bounding total lifetime from first issuance. -/
theorem refresh_window_iff (mw : JWTMiddleware) (now t0 : Int)
    (ext : Except String WireToken) (w : WireToken)
    (hparse : parseTokenE mw now ext = .ok w)
    (horig : w.claims.get "orig_iat" = some (.num t0)) :
    ((refreshHandler mw now ext).isUnauthorized = true
        ↔ t0 < now - mw.MaxRefresh)
    ∧ (∀ w' r, refreshHandler mw now ext = .emitted w' r →
        w'.claims.get "exp" = some (.num (now + mw.Timeout))
        ∧ now + mw.Timeout ≤ t0 + mw.MaxRefresh + mw.Timeout) := by
  have hred : refreshHandler mw now ext =
      if t0 < now - mw.MaxRefresh then .unauthorized (unauthorizedResponse mw)
      else
        match (refreshClaims mw now w.claims t0).get "id" with
        | some (.str _) =>
            .emitted (signNew mw.SigningAlgorithm (mw.Key.getD [])
                (refreshClaims mw now w.claims t0))
              ((mw.RefreshCallback.getD defaultResponseCallback)
                (signNew mw.SigningAlgorithm (mw.Key.getD [])
                  (refreshClaims mw now w.claims t0)))
        | _ => .crash "interface conversion: interface is not string" := by
    unfold refreshHandler
    rw [hparse]
    dsimp only
    rw [horig]
  constructor
  · rw [hred]
    by_cases hw : t0 < now - mw.MaxRefresh
    · simp [hw, HandlerResult.isUnauthorized]
    · rw [if_neg hw]
      simp only [hw, iff_false]
      split <;> simp [HandlerResult.isUnauthorized]
  · intro w' r hem
    rw [hred] at hem
    by_cases hw : t0 < now - mw.MaxRefresh
    · rw [if_pos hw] at hem; cases hem
    · rw [if_neg hw] at hem
      split at hem
      · cases hem
        refine ⟨refreshClaims_get_exp mw now t0 w.claims, ?_⟩
        omega
      · cases hem

/-- C1 witness: a valid token with `orig_iat = 100` presented at `now = 1000`
under a 2 h window is not rejected. -/
theorem refresh_window_iff_witness :
    (refreshHandler mwBase 1000 (.ok tokFull)).isUnauthorized = true
      ↔ (100 : Int) < 1000 - mwBase.MaxRefresh :=
  (refresh_window_iff mwBase 1000 100 (.ok tokFull) tokFull rfl rfl).1

/-- C5: refreshing a valid token inside the window emits a token whose `id`
and `orig_iat` lookups equal the presented token's, whose other claim
entries are copied verbatim, whose `exp` is `now + Timeout`, and which
itself verifies under the configured key and algorithm at any instant
before its new expiry. -/
theorem refresh_preserves (mw : JWTMiddleware) (now t0 : Int) (uid : String)
    (ext : Except String WireToken) (w : WireToken)
    (hparse : parseTokenE mw now ext = .ok w)
    (horig : w.claims.get "orig_iat" = some (.num t0))
    (hid : w.claims.get "id" = some (.str uid))
    (hwin : ¬ t0 < now - mw.MaxRefresh)
    (halg : getSigningMethod mw.SigningAlgorithm = some mw.SigningAlgorithm) :
    (∃ w' r, refreshHandler mw now ext = .emitted w' r)
    ∧ (∀ w' r, refreshHandler mw now ext = .emitted w' r →
        w'.claims.get "id" = w.claims.get "id"
        ∧ w'.claims.get "orig_iat" = w.claims.get "orig_iat"
        ∧ w'.claims.get "exp" = some (.num (now + mw.Timeout))
        ∧ (∀ q, q ≠ "id" → q ≠ "exp" → q ≠ "orig_iat" →
            w'.claims.get q = w.claims.get q)
        ∧ w'.method = mw.SigningAlgorithm
        ∧ (∀ t, t < now + mw.Timeout → jwtParse mw t w' = .ok w')) := by
  have hgetid : (refreshClaims mw now w.claims t0).get "id"
      = some (.str uid) := by
    rw [refreshClaims_get_id, hid]
    rfl
  have hred : refreshHandler mw now ext =
      .emitted (signNew mw.SigningAlgorithm (mw.Key.getD [])
          (refreshClaims mw now w.claims t0))
        ((mw.RefreshCallback.getD defaultResponseCallback)
          (signNew mw.SigningAlgorithm (mw.Key.getD [])
            (refreshClaims mw now w.claims t0))) := by
    unfold refreshHandler
    rw [hparse]
    dsimp only
    rw [horig]
    dsimp only
    rw [if_neg hwin, hgetid]
  refine ⟨⟨_, _, hred⟩, ?_⟩
  intro w' r hem
  rw [hred] at hem
  cases hem
  refine ⟨?_, ?_, ?_, ?_, rfl, ?_⟩
  · rw [signNew_claims, hgetid, hid]
  · rw [signNew_claims, refreshClaims_get_orig, horig]
  · rw [signNew_claims]
    exact refreshClaims_get_exp mw now t0 w.claims
  · intro q h1 h2 h3
    rw [signNew_claims]
    exact refreshClaims_get_other mw now t0 w.claims q h1 h2 h3
  · intro t ht
    unfold jwtParse
    rw [signNew_method, halg]
    dsimp only
    rw [if_neg (fun hne => hne rfl)]
    rw [signNew_sig, signNew_claims]
    rw [if_neg (fun hne => hne rfl)]
    rw [refreshClaims_get_exp]
    dsimp only
    rw [if_pos ht]

theorem getSigningMethod_self_or_none (a : String) :
    getSigningMethod a = none ∨ getSigningMethod a = some a := by
  unfold getSigningMethod
  split
  · exact Or.inr rfl
  · exact Or.inl rfl

/-- C3: with a validly configured algorithm, verification returns an error
exactly when the token's declared algorithm differs from the configured one,
or the signature is not the one computed with the configured key over the
token's claims, or the `exp` claim is not a numeric timestamp strictly in
the future; a token meeting all three conditions is accepted unchanged. -/
theorem parse_error_iff (mw : JWTMiddleware) (now : Int) (w : WireToken)
    (halg : getSigningMethod mw.SigningAlgorithm = some mw.SigningAlgorithm) :
    ((∃ e, jwtParse mw now w = .error e) ↔
      (w.method ≠ mw.SigningAlgorithm
       ∨ w.sig ≠ mkSig w.method (mw.Key.getD []) w.claims
       ∨ ¬ ∃ x, w.claims.get "exp" = some (.num x) ∧ now < x))
    ∧ (jwtParse mw now w = .ok w ↔
      (w.method = mw.SigningAlgorithm
       ∧ w.sig = mkSig w.method (mw.Key.getD []) w.claims
       ∧ ∃ x, w.claims.get "exp" = some (.num x) ∧ now < x)) := by
  rcases getSigningMethod_self_or_none w.method with hm | hm
  · have hne : w.method ≠ mw.SigningAlgorithm := by
      intro he
      rw [he, halg] at hm
      cases hm
    unfold jwtParse
    rw [hm]
    constructor
    · exact ⟨fun _ => Or.inl hne, fun _ => ⟨_, rfl⟩⟩
    · constructor
      · intro hok
        cases hok
      · rintro ⟨he, -, -⟩
        exact absurd he hne
  · unfold jwtParse
    rw [hm]
    dsimp only
    rw [halg]
    by_cases heq : w.method = mw.SigningAlgorithm
    · rw [heq]
      rw [if_neg (fun hne => hne rfl)]
      by_cases hsig : w.sig = mkSig mw.SigningAlgorithm (mw.Key.getD [])
          w.claims
      · rw [if_neg (fun hne => hne hsig)]
        cases hexp : w.claims.get "exp" with
        | none => simp [hsig]
        | some v =>
            cases v with
            | num e =>
                dsimp only
                by_cases he : now < e
                · rw [if_pos he]
                  simp [hsig, he]
                · rw [if_neg he]
                  simp [hsig, he]
            | str s => simp [hsig]
            | boolean b => simp [hsig]
            | null => simp [hsig]
      · rw [if_pos hsig]
        constructor
        · exact ⟨fun _ => Or.inr (Or.inl hsig), fun _ => ⟨_, rfl⟩⟩
        · constructor
          · intro hok
            cases hok
          · rintro ⟨-, hs, -⟩
            exact absurd hs hsig
    · rw [if_pos (fun hc => heq (Option.some.inj hc).symm)]
      constructor
      · exact ⟨fun _ => Or.inl heq, fun _ => ⟨_, rfl⟩⟩
      · constructor
        · intro hok
          cases hok
        · rintro ⟨he, -, -⟩
          exact absurd he heq

/-- C3 witness: the sample token is accepted at `now = 1000` under the
configured HS256 key. -/
theorem parse_error_iff_witness :
    jwtParse mwBase 1000 tokFull = .ok tokFull :=
  (parse_error_iff mwBase 1000 tokFull rfl).2.mpr
    ⟨rfl, rfl, ⟨7200, rfl, by decide⟩⟩

/-- C5 witness: refreshing the sample token at `now = 1000` keeps its `id`
lookup and the new token still verifies at `t = 2000`. -/
theorem refresh_preserves_witness :
    (signNew mwBase.SigningAlgorithm (mwBase.Key.getD [])
        (refreshClaims mwBase 1000 tokFull.claims 100)).claims.get "id"
      = tokFull.claims.get "id"
    ∧ jwtParse mwBase 2000
        (signNew mwBase.SigningAlgorithm (mwBase.Key.getD [])
          (refreshClaims mwBase 1000 tokFull.claims 100))
      = .ok (signNew mwBase.SigningAlgorithm (mwBase.Key.getD [])
          (refreshClaims mwBase 1000 tokFull.claims 100)) :=
  have h := refresh_preserves mwBase 1000 100 "admin" (.ok tokFull) tokFull
    rfl rfl rfl (by decide) rfl
  have h2 := h.2
    (signNew mwBase.SigningAlgorithm (mwBase.Key.getD [])
      (refreshClaims mwBase 1000 tokFull.claims 100))
    ((mwBase.RefreshCallback.getD defaultResponseCallback)
      (signNew mwBase.SigningAlgorithm (mwBase.Key.getD [])
        (refreshClaims mwBase 1000 tokFull.claims 100))) rfl
  ⟨h2.1, h2.2.2.2.2.2 2000 (by decide)⟩

theorem loginClaims_get_id (mw : JWTMiddleware) (now : Int) (u : String) :
    (loginClaims mw now u).get "id" = some (.str u) := by
  unfold loginClaims
  dsimp only
  by_cases hmr : mw.MaxRefresh ≠ 0
  · rw [if_pos hmr, Claims.get_set_ne _ _ _ _ (by decide),
      Claims.get_set_ne _ _ _ _ (by decide), Claims.get_set_self]
  · rw [if_neg hmr, Claims.get_set_ne _ _ _ _ (by decide),
      Claims.get_set_self]

theorem loginClaims_get_exp (mw : JWTMiddleware) (now : Int) (u : String) :
    (loginClaims mw now u).get "exp" = some (.num (now + mw.Timeout)) := by
  unfold loginClaims
  dsimp only
  by_cases hmr : mw.MaxRefresh ≠ 0
  · rw [if_pos hmr, Claims.get_set_ne _ _ _ _ (by decide),
      Claims.get_set_self]
  · rw [if_neg hmr, Claims.get_set_self]

theorem loginClaims_get_orig_enabled (mw : JWTMiddleware) (now : Int)
    (u : String) (hmr : mw.MaxRefresh ≠ 0) :
    (loginClaims mw now u).get "orig_iat" = some (.num now) := by
  unfold loginClaims
  dsimp only
  rw [if_pos hmr, Claims.get_set_self]

theorem loginClaims_get_orig_disabled (mw : JWTMiddleware) (now : Int)
    (u : String) (hmr : mw.MaxRefresh = 0) :
    (loginClaims mw now u).get "orig_iat"
      = (loginPayload mw u).get "orig_iat" := by
  unfold loginClaims
  dsimp only
  rw [if_neg (fun hc => hc hmr), Claims.get_set_ne _ _ _ _ (by decide),
    Claims.get_set_ne _ _ _ _ (by decide)]

theorem loginClaims_get_other (mw : JWTMiddleware) (now : Int) (u q : String)
    (h1 : q ≠ "id") (h2 : q ≠ "exp") (h3 : q ≠ "orig_iat") :
    (loginClaims mw now u).get q = (loginPayload mw u).get q := by
  unfold loginClaims
  dsimp only
  by_cases hmr : mw.MaxRefresh ≠ 0
  · rw [if_pos hmr, Claims.get_set_ne _ _ _ _ h3,
      Claims.get_set_ne _ _ _ _ h2, Claims.get_set_ne _ _ _ _ h1]
  · rw [if_neg hmr, Claims.get_set_ne _ _ _ _ h2,
      Claims.get_set_ne _ _ _ _ h1]

/-- C4 (amended): on an accepted login the token's claims are the provider
payload written first, then the reserved keys written over it: `id = u`,
`exp = now + Timeout`, and `orig_iat = now` exactly when `MaxRefresh != 0`;
when `MaxRefresh == 0` the reserved step does not write `orig_iat`, so an
`orig_iat` supplied by the provider remains. -/
theorem login_claims_construction (mw : JWTMiddleware) (now : Int)
    (u p : String) (f : String → String → Bool)
    (hauth : mw.Authenticator = some f) (hok : f u p = true) :
    (∃ tok r, loginHandler mw now (some ⟨u, p⟩) = .emitted tok r)
    ∧ (∀ tok r, loginHandler mw now (some ⟨u, p⟩) = .emitted tok r →
        tok.claims.get "id" = some (.str u)
        ∧ tok.claims.get "exp" = some (.num (now + mw.Timeout))
        ∧ (mw.MaxRefresh ≠ 0 → tok.claims.get "orig_iat" = some (.num now))
        ∧ (mw.MaxRefresh = 0 → tok.claims.get "orig_iat"
            = (loginPayload mw u).get "orig_iat")
        ∧ (∀ q, q ≠ "id" → q ≠ "exp" → q ≠ "orig_iat" →
            tok.claims.get q = (loginPayload mw u).get q)) := by
  have hred : loginHandler mw now (some ⟨u, p⟩) =
      .emitted (signNew mw.SigningAlgorithm (mw.Key.getD [])
          (loginClaims mw now u))
        ((mw.LoginCallback.getD defaultResponseCallback)
          (signNew mw.SigningAlgorithm (mw.Key.getD [])
            (loginClaims mw now u))) := by
    unfold loginHandler
    rw [hauth]
    dsimp only
    rw [hok, if_pos rfl]
  refine ⟨⟨_, _, hred⟩, ?_⟩
  intro tok r hem
  rw [hred] at hem
  cases hem
  refine ⟨?_, ?_, ?_, ?_, ?_⟩
  · rw [signNew_claims]
    exact loginClaims_get_id mw now u
  · rw [signNew_claims]
    exact loginClaims_get_exp mw now u
  · intro hmr
    rw [signNew_claims]
    exact loginClaims_get_orig_enabled mw now u hmr
  · intro hmr
    rw [signNew_claims]
    exact loginClaims_get_orig_disabled mw now u hmr
  · intro q h1 h2 h3
    rw [signNew_claims]
    exact loginClaims_get_other mw now u q h1 h2 h3

/-- Middleware whose claims provider tries to collide with reserved keys. -/
def collidePayload : String → Claims :=
  fun _ => [("id", .str "evil"), ("role", .str "boss")]

def mwCollide : JWTMiddleware :=
  { mwBase with PayloadFunc := some collidePayload }

/-- C4 witness: even a provider-supplied `id` is overwritten by the reserved
write, while a non-reserved provider entry survives. -/
theorem login_claims_construction_witness :
    (signNew mwCollide.SigningAlgorithm (mwCollide.Key.getD [])
        (loginClaims mwCollide 0 "admin")).claims.get "id"
      = some (.str "admin")
    ∧ (signNew mwCollide.SigningAlgorithm (mwCollide.Key.getD [])
        (loginClaims mwCollide 0 "admin")).claims.get "exp"
      = some (.num (0 + mwCollide.Timeout)) :=
  have h := login_claims_construction mwCollide 0 "admin" "secret"
    (fun u p => u == "admin" && p == "secret") rfl (by decide)
  have h2 := h.2
    (signNew mwCollide.SigningAlgorithm (mwCollide.Key.getD [])
      (loginClaims mwCollide 0 "admin"))
    ((mwCollide.LoginCallback.getD defaultResponseCallback)
      (signNew mwCollide.SigningAlgorithm (mwCollide.Key.getD [])
        (loginClaims mwCollide 0 "admin"))) rfl
  ⟨h2.1, h2.2.1⟩

/-- Middleware with refresh disabled and a provider that supplies
`orig_iat` itself. -/
def origIatPayload : String → Claims :=
  fun _ => [("orig_iat", .num 5)]

def mwPay : JWTMiddleware :=
  { mwBase with MaxRefresh := 0, PayloadFunc := some origIatPayload }

/-- C4 counterexample: with `MaxRefresh == 0` the issued token still carries
an `orig_iat` entry when the provider supplied one, refuting "orig_iat
absent when MaxRefresh == 0". -/
theorem login_orig_iat_not_absent :
    mwPay.MaxRefresh = 0
    ∧ (loginHandler mwPay 0 (some ⟨"admin", "secret"⟩)).emittedToken.map
        (fun t => t.claims.get "orig_iat") = some (some (.num 5)) :=
  ⟨rfl, by decide⟩

/-- Middleware constructed without a token header name. -/
def mwUnsetName : JWTMiddleware := { mwBase with TokenName := "" }

/-- C8 counterexample: `MiddlewareFunc` does write the configuration —
wrapping a middleware whose `TokenName` was empty at construction changes
that field to `Authorization`. -/
theorem middlewareFunc_writes_tokenName :
    mwUnsetName.TokenName = ""
    ∧ (middlewareFunc mwUnsetName).map (fun m => m.TokenName)
        = some "Authorization" :=
  ⟨rfl, by decide⟩

/-- C8 (amended): the per-request operations are pure readers of the
configuration; the one writer is `MiddlewareFunc`, which only fills fields
left unset: when every defaultable field is already set at construction it
returns the configuration unchanged. -/
theorem config_preserved (mw : JWTMiddleware)
    (h1 : mw.TokenName ≠ "") (h2 : mw.TokenEnvName ≠ "") (h3 : mw.Realm ≠ "")
    (h4 : mw.SigningAlgorithm ≠ "") (h5 : mw.Key ≠ none)
    (h6 : mw.Timeout ≠ 0) (h7 : mw.Authenticator ≠ none)
    (h8 : mw.TokenExtractor ≠ none) (h9 : mw.Authorizator ≠ none)
    (h10 : mw.LoginCallback ≠ none) (h11 : mw.RefreshCallback ≠ none) :
    middlewareFunc mw = some mw := by
  unfold middlewareFunc
  simp [h1, h2, h3, h4, h6, Option.isNone_iff_eq_none, h5, h7, h8, h9, h10,
    h11]

/-- Middleware with every defaultable field set at construction. -/
def mwFull : JWTMiddleware :=
  { mwBase with
    TokenExtractor := some (defaultTokenExtractor "Authorization")
    LoginCallback := some defaultResponseCallback
    RefreshCallback := some defaultResponseCallback }

/-- C8 witness: on a fully constructed middleware `MiddlewareFunc` leaves
the configuration untouched. -/
theorem config_preserved_witness : middlewareFunc mwFull = some mwFull :=
  config_preserved mwFull (by decide) (by decide) (by decide) (by decide)
    (by decide) (by decide) (by simp [mwFull, mwBase])
    (by simp [mwFull, mwBase]) (by simp [mwFull, mwBase])
    (by simp [mwFull, mwBase]) (by simp [mwFull, mwBase])

/-- C9 (amended): `ExtractClaims` yields a fresh empty (non-nil) claims map
when the environment has no `JWT_PAYLOAD` entry, and after an admitted gate
pass it yields exactly the claims map the gate stored — provided the
configured `TokenEnvName` is not itself `JWT_PAYLOAD`, since that later
environment write would overwrite the stored map. -/
theorem extractClaims_spec (mw : JWTMiddleware) (now : Int)
    (ext : Except String WireToken) (env env' : Env) (w : WireToken) :
    (∀ e : Env, e "JWT_PAYLOAD" = none → ExtractClaims e = .ok [])
    ∧ (mw.TokenEnvName ≠ "JWT_PAYLOAD" →
        parseTokenE mw now ext = .ok w →
        middlewareImpl mw now ext env = .admitted env' →
        ExtractClaims env' = .ok w.claims) := by
  constructor
  · intro e he
    unfold ExtractClaims
    rw [he]
  · intro hname hparse hadm
    unfold middlewareImpl at hadm
    rw [hparse] at hadm
    dsimp only at hadm
    cases hid : w.claims.get "id" with
    | none =>
        rw [hid] at hadm
        cases hadm
    | some v =>
        cases v with
        | str id =>
            rw [hid] at hadm
            dsimp only at hadm
            cases hau : mw.Authorizator with
            | none =>
                rw [hau] at hadm
                cases hadm
            | some a =>
                rw [hau] at hadm
                dsimp only at hadm
                by_cases hz : a id = true
                · rw [if_pos hz] at hadm
                  cases hadm
                  have hlook : (Env.set (Env.set (Env.set env "REMOTE_USER"
                      (.str id)) "JWT_PAYLOAD" (.claimsMap w.claims))
                      mw.TokenEnvName (.str w.raw)) "JWT_PAYLOAD"
                      = some (.claimsMap w.claims) := by
                    unfold Env.set
                    rw [if_neg (fun hc => hname hc.symm), if_pos rfl]
                  unfold ExtractClaims
                  rw [hlook]
                · rw [if_neg hz] at hadm
                  cases hadm
        | num n =>
            rw [hid] at hadm
            cases hadm
        | boolean b =>
            rw [hid] at hadm
            cases hadm
        | null =>
            rw [hid] at hadm
            cases hadm

/-- C9 witness: an environment without `JWT_PAYLOAD` yields the empty map,
and after the sample token passes the gate the stored claims come back. -/
theorem extractClaims_spec_witness :
    ExtractClaims (fun _ => none) = .ok []
    ∧ ExtractClaims ((middlewareImpl mwBase 1000 (.ok tokFull)
        (fun _ => none)).envAfter) = .ok tokFull.claims :=
  have h := extractClaims_spec mwBase 1000 (.ok tokFull) (fun _ => none)
    ((middlewareImpl mwBase 1000 (.ok tokFull) (fun _ => none)).envAfter)
    tokFull
  ⟨h.1 (fun _ => none) rfl, h.2 (by decide) rfl (by rfl)⟩

/-- Middleware configured to store the raw token under `JWT_PAYLOAD`. -/
def mwEnvClash : JWTMiddleware :=
  { mwBase with TokenEnvName := "JWT_PAYLOAD" }

/-- C9 counterexample: with `TokenEnvName = "JWT_PAYLOAD"` the gate admits
the request, but its last environment write overwrites the stored claims
map with the raw token string, so `ExtractClaims` does not return the map
the gate stored (it hits the unchecked map assertion instead). -/
theorem extractClaims_gate_overwritten :
    (middlewareImpl mwEnvClash 1000 (.ok tokFull) (fun _ => none)).isAdmitted
      = true
    ∧ ExtractClaims ((middlewareImpl mwEnvClash 1000 (.ok tokFull)
        (fun _ => none)).envAfter) = .crash :=
  ⟨by decide, by decide⟩

end AuthJwt
